import Mathlib

/-!
Verification of the SheetFlow issue-store mutation engine
(`src/lib/actions.ts`) against its natural-language specification.

The TypeScript server actions are shallowly embedded as pure Lean
functions.  The mutable module-level store `issuesDB : Issue[]` and the
assignee registry `assigneesDB : string[]` become explicit parameters and
results; `new Date().toISOString()` becomes an explicit `now : String`
parameter; the external natural-language interpreter is out of scope, so
the orchestrator is embedded from the point where the interpreter result
(`InterpretIssueCommandOutput`) is in hand.  Form submissions
(`FormData`) are embedded as records of `Option String` fields, where
`none` models `formData.get` returning `null` for an absent key.
-/

/-- Result status of a server action state object
(the `status` field of the `*ActionState` interfaces). -/
inductive ResStatus where
  | idle
  | success
  | error
deriving DecidableEq, Repr

/-- The `IssueDescription` sub-record, from usage in `actions.ts`
(its declaring file `lib/types.ts` is not in the snapshot; the optional
fields are exactly those read and written by the actions and described in
the data model of the spec).  An optional TypeScript field holding
`undefined` is `none`. -/
structure IssueDescription where
  apiName : Option String := none
  method : Option String := none
  payload : Option String := none
  response : Option String := none
  responseCode : Option Int := none
  imageDataUri : Option String := none
  generalNotes : Option String := none
deriving DecidableEq, Repr

/-- The `Issue` record, from usage in `actions.ts` (the declaring file
`lib/types.ts` is not in the snapshot).  `status` and `priority` are
strings constrained at the boundaries by membership in the closed enum
lists, exactly as the TypeScript code checks them with `.includes`. -/
structure Issue where
  id : String
  title : String
  description : IssueDescription
  status : String
  priority : String
  assignee : Option String := none
  reporter : String
  createdAt : String
  updatedAt : String
  labels : List String := []
deriving DecidableEq, Repr

/-- Modelled from the spec: the closed status enum (`issueStatuses` in
`lib/types.ts`, which is not in the snapshot).  The member values are
the ones occurring in the repository (default literal in actions.ts,
interpreter flow examples, list UI). -/
def issueStatuses : List String := ["To Do", "In Progress", "Done"]

/-- Modelled from the spec: the closed priority enum (`issuePriorities`
in `lib/types.ts`, which is not in the snapshot). -/
def issuePriorities : List String := ["Low", "Medium", "High", "Urgent"]

/-- Modelled from the spec: the closed API method enum (`apiMethods` in
`lib/types.ts`, which is not in the snapshot). -/
def apiMethods : List String := ["GET", "POST", "PUT", "DELETE", "PATCH"]

/-- Sentinel literal the forms use for the "Unassigned" select option
(`UNASSIGNED_FORM_VALUE` in actions.ts). -/
def UNASSIGNED_FORM_VALUE : String := "_SELECT_UNASSIGNED_"

/-- Sentinel literal the forms use for the "N/A" API-method option
(`API_METHOD_NA_FORM_VALUE` in actions.ts). -/
def API_METHOD_NA_FORM_VALUE : String := "_API_METHOD_NA_"

/-- Decides whether a character is an ASCII decimal digit, the character
class `\d` of the identifier regular expression in `generateNewIssueId`. -/
def isDigitChar (c : Char) : Bool := 48 ≤ c.toNat && c.toNat ≤ 57

/-- Numeric value of a list of decimal digit characters, the value
`parseInt(match[1], 10)` computes on the digits captured by the
identifier pattern. -/
def digitsVal (cs : List Char) : Nat :=
  cs.foldl (fun a c => a * 10 + (c.toNat - 48)) 0

/-- Embeds the test `issue.id.match(/^SF-(\d+)$/)` followed by
`parseInt(match[1], 10)` in `generateNewIssueId`: the numeric suffix of
an identifier of the form `SF-` followed by one or more digits, `none`
for any other shape. -/
def sfSuffix (id : String) : Option Nat :=
  match id.toList with
  | 'S' :: 'F' :: '-' :: rest =>
      if !rest.isEmpty && rest.all isDigitChar then some (digitsVal rest) else none
  | _ => none

/-- Fuelled decimal rendering of a natural number, least significant
digit last; embeds `(n).toString()` of JavaScript for non-negative
integers.  The fuel argument makes the recursion structural; callers
pass `n + 1`, which always suffices since `n / 10 < n` for `n ≥ 10`. -/
def natDigitsAux : Nat → Nat → List Char
  | 0, _ => []
  | fuel + 1, n =>
      if n < 10 then [Char.ofNat (48 + n)]
      else natDigitsAux fuel (n / 10) ++ [Char.ofNat (48 + n % 10)]

/-- Decimal digit list of a natural number (JavaScript `Number.toString`
restricted to naturals). -/
def natDigits (n : Nat) : List Char := natDigitsAux (n + 1) n

/-- Embeds `.padStart(3, '0')` on a digit list. -/
def padStart3 (cs : List Char) : List Char :=
  if cs.length ≥ 3 then cs else List.replicate (3 - cs.length) '0' ++ cs

/-- The `maxId` computation of `generateNewIssueId`: the largest numeric
suffix among well-formed `SF-` identifiers in the store, `0` when there
is none (`Math.max(...numericIds)` guarded by `numericIds.length > 0`;
folding `max` from `0` agrees because all suffixes are non-negative). -/
def maxSuffix (existingIssues : List Issue) : Nat :=
  (existingIssues.filterMap (fun issue => sfSuffix issue.id)).foldl max 0

/-- Embeds `generateNewIssueId` from actions.ts. -/
def generateNewIssueId (existingIssues : List Issue) : String :=
  String.mk ('S' :: 'F' :: '-' :: padStart3 (natDigits (maxSuffix existingIssues + 1)))

/-- Structured intent produced by the external natural-language
interpreter (`InterpretIssueCommandOutput` in
`ai/flows/interpret-issue-command.ts`): a free-form action kind plus
optional extracted fields.  `none` models an absent (`undefined`)
optional field. -/
structure InterpretOut where
  action : String
  issueId : Option String := none
  title : Option String := none
  description : Option String := none
  assignee : Option String := none
  status : Option String := none
  priority : Option String := none
deriving DecidableEq, Repr

/-- JavaScript truthiness of an optional string field: `undefined` and
the empty string are falsy, every other string is truthy. -/
def strTruthy : Option String → Bool
  | none => false
  | some s => !(s == "")

/-- Embeds the assignee sentinel resolution of the command path: the
literal `unassigned` and falsy values resolve to the absent value,
anything else passes through. -/
def resolveAssigneeAI (a : Option String) : Option String :=
  match a with
  | none => none
  | some s => if s == "unassigned" || s == "" then none else some s

/-- The `CommandActionState` result interface of
`processIssueCommandAction`. -/
structure CommandActionState where
  status : ResStatus
  message : String
  interpretation : Option InterpretOut := none
  updatedIssueId : Option String := none
deriving DecidableEq, Repr

/-- Replaces the first element satisfying `p` by its image under `f`;
embeds the JavaScript idiom of mutating in place the object returned by
`Array.prototype.find` (equivalently `findIndex` followed by an indexed
assignment): exactly the first matching element changes, all other
elements and the order are untouched. -/
def updateFirst (p : Issue → Bool) (f : Issue → Issue) : List Issue → List Issue
  | [] => []
  | i :: rest => if p i then f i :: rest else i :: updateFirst p f rest

/-- Removes the first element satisfying `p`; embeds `findIndex`
followed by `splice(index, 1)`. -/
def removeFirst (p : Issue → Bool) : List Issue → List Issue
  | [] => []
  | i :: rest => if p i then rest else i :: removeFirst p rest

/-- Embeds the dispatch of `processIssueCommandAction` from the point
where the external interpreter has returned (lines 65 to 148 of
actions.ts).  The store `issuesDB` is threaded explicitly; `now` stands
for `new Date().toISOString()`. -/
def processIssueCommand (interp : InterpretOut) (db : List Issue) (now : String) :
    CommandActionState × List Issue :=
  if interp.action == "createIssue" then
    if !(strTruthy interp.title) then
      ({ status := .error,
         message := "Cannot create issue: Title is missing from AI interpretation.",
         interpretation := some interp }, db)
    else
      let newIssueId := generateNewIssueId db
      let newIssue : Issue := {
        id := newIssueId
        title := interp.title.getD ""
        description := {
          generalNotes := some (interp.description.getD "")
          apiName := none, method := none, payload := none
          response := none, responseCode := none, imageDataUri := none }
        status := match interp.status with
          | some s => if issueStatuses.contains s then s else "To Do"
          | none => "To Do"
        priority := match interp.priority with
          | some p => if issuePriorities.contains p then p else "Medium"
          | none => "Medium"
        assignee := resolveAssigneeAI interp.assignee
        reporter := "AI Command Bar"
        createdAt := now
        updatedAt := now
        labels := [] }
      ({ status := .success,
         message := "New issue " ++ newIssueId ++ ": \"" ++ newIssue.title ++ "\" created.",
         interpretation := some interp,
         updatedIssueId := some newIssueId }, newIssue :: db)
  else if strTruthy interp.issueId then
    let tid := interp.issueId.getD ""
    match db.find? (fun issue => issue.id == tid) with
    | none =>
        ({ status := .error, message := "Issue " ++ tid ++ " not found.",
           interpretation := some interp }, db)
    | some issueToUpdate =>
      if interp.action == "assignIssue" && strTruthy interp.assignee then
        let updated := { issueToUpdate with
          assignee := resolveAssigneeAI interp.assignee, updatedAt := now }
        ({ status := .success,
           message := "Issue " ++ issueToUpdate.id ++
             " updated based on command. Action: " ++ interp.action ++ ".",
           interpretation := some interp, updatedIssueId := some issueToUpdate.id },
         updateFirst (fun issue => issue.id == tid) (fun _ => updated) db)
      else if interp.action == "updateIssueStatus" && strTruthy interp.status then
        let s := interp.status.getD ""
        if !(issueStatuses.contains s) then
          ({ status := .error, message := "Invalid status: " ++ s ++ ".",
             interpretation := some interp }, db)
        else
          let updated := { issueToUpdate with status := s, updatedAt := now }
          ({ status := .success,
             message := "Issue " ++ issueToUpdate.id ++
               " updated based on command. Action: " ++ interp.action ++ ".",
             interpretation := some interp, updatedIssueId := some issueToUpdate.id },
           updateFirst (fun issue => issue.id == tid) (fun _ => updated) db)
      else if interp.action == "updateIssuePriority" && strTruthy interp.priority then
        let p := interp.priority.getD ""
        if !(issuePriorities.contains p) then
          ({ status := .error, message := "Invalid priority: " ++ p ++ ".",
             interpretation := some interp }, db)
        else
          let updated := { issueToUpdate with priority := p, updatedAt := now }
          ({ status := .success,
             message := "Issue " ++ issueToUpdate.id ++
               " updated based on command. Action: " ++ interp.action ++ ".",
             interpretation := some interp, updatedIssueId := some issueToUpdate.id },
           updateFirst (fun issue => issue.id == tid) (fun _ => updated) db)
      else if interp.action == "updateIssueDescription" && interp.description.isSome then
        let updated := { issueToUpdate with
          description := { issueToUpdate.description with
            generalNotes := some (interp.description.getD "") }
          updatedAt := now }
        ({ status := .success,
           message := "Issue " ++ issueToUpdate.id ++
             " updated based on command. Action: " ++ interp.action ++ ".",
           interpretation := some interp, updatedIssueId := some issueToUpdate.id },
         updateFirst (fun issue => issue.id == tid) (fun _ => updated) db)
      else if interp.action == "updateIssueTitle" && strTruthy interp.title then
        let updated := { issueToUpdate with
          title := interp.title.getD "", updatedAt := now }
        ({ status := .success,
           message := "Issue " ++ issueToUpdate.id ++
             " updated based on command. Action: " ++ interp.action ++ ".",
           interpretation := some interp, updatedIssueId := some issueToUpdate.id },
         updateFirst (fun issue => issue.id == tid) (fun _ => updated) db)
      else
        ({ status := .error,
           message := "Unknown or incomplete action for issue " ++ tid ++ ".",
           interpretation := some interp }, db)
  else
    ({ status := .success,
       message := "Command interpreted. Review interpretation below. No specific database action taken as no issue ID was identified for update/assign, and it was not a create command.",
       interpretation := some interp }, db)

/-- Raw form data of `updateIssueAction`: the thirteen keys read with
`formData.get`, each `none` when the key is absent (JavaScript `null`). -/
structure UpdateForm where
  id : Option String := none
  title : Option String := none
  status : Option String := none
  priority : Option String := none
  assignee : Option String := none
  description_apiName : Option String := none
  description_method : Option String := none
  description_payload : Option String := none
  description_response : Option String := none
  description_responseCode : Option String := none
  description_imageDataUri : Option String := none
  description_imageDataUri_clear : Option String := none
  description_generalNotes : Option String := none
deriving DecidableEq, Repr

/-- Raw form data of `createIssueDirectAction`: the eleven keys read
with `formData.get`. -/
structure CreateForm where
  title : Option String := none
  status : Option String := none
  priority : Option String := none
  assignee : Option String := none
  description_apiName : Option String := none
  description_method : Option String := none
  description_payload : Option String := none
  description_response : Option String := none
  description_responseCode : Option String := none
  description_imageDataUri : Option String := none
  description_generalNotes : Option String := none
deriving DecidableEq, Repr

/-- A field-keyed validation error list, the flattened `fieldErrors` of
a failed zod parse, in schema field order. -/
abbrev FieldErrors := List (String × String)

/-- Validation of a plain `z.string()` or `z.string().optional()` (with
or without `.default`) field against a `formData.get` result: `null`
(an absent key) is not a string and fails; `undefined`, the only value
`.optional()` and `.default` act on, cannot arise from `FormData`. -/
def checkString (field : String) : Option String → FieldErrors
  | none => [(field, "Expected string, received null")]
  | some _ => []

/-- Validation of the `title` field, `z.string().min(1, msg)`. -/
def checkTitle (msg : String) : Option String → FieldErrors
  | none => [("title", "Expected string, received null")]
  | some s => if s == "" then [("title", msg)] else []

/-- Validation of the `status` field,
`z.custom(val => issueStatuses.includes(val), "Invalid status value")`;
the predicate is applied to the raw value, so an absent key also fails. -/
def checkStatus : Option String → FieldErrors
  | none => [("status", "Invalid status value")]
  | some s => if issueStatuses.contains s then [] else [("status", "Invalid status value")]

/-- Validation of the `priority` field, analogous to `checkStatus`. -/
def checkPriority : Option String → FieldErrors
  | none => [("priority", "Invalid priority value")]
  | some p => if issuePriorities.contains p then [] else [("priority", "Invalid priority value")]

/-- Embeds JavaScript `parseInt(s, 10)`: leading whitespace skipped, an
optional sign, then the longest prefix of decimal digits; `none` models
`NaN` when no digit is found. -/
def parseIntJS (s : String) : Option Int :=
  let cs := s.toList.dropWhile (fun c =>
    c == ' ' || c == '\t' || c == '\n' || c == '\r')
  let signAndRest : Int × List Char :=
    match cs with
    | '-' :: r => (-1, r)
    | '+' :: r => (1, r)
    | _ => (1, cs)
  let ds := signAndRest.2.takeWhile isDigitChar
  if ds.isEmpty then none else some (signAndRest.1 * (digitsVal ds : Int))

/-- Whitespace recognized by JavaScript `String.prototype.trim` in its
common ASCII range. -/
def isJsSpace (c : Char) : Bool :=
  c == ' ' || c == '\t' || c == '\n' || c == '\r'

/-- Embeds `String(val).trim()`: strips whitespace from both ends. -/
def jsTrim (s : String) : String :=
  String.mk (((s.toList.dropWhile isJsSpace).reverse.dropWhile isJsSpace).reverse)

/-- Validation of `description_responseCode`: the zod `preprocess` maps
an absent key (`null`) or blank text to `undefined`, accepted by
`.optional()`; otherwise `parseInt` must produce a number (`NaN` fails
`z.number()` as parsed type `nan`). -/
def checkResponseCode : Option String → FieldErrors
  | none => []
  | some s =>
    if jsTrim s == "" then []
    else
      match parseIntJS s with
      | none => [("description_responseCode", "Expected number, received nan")]
      | some _ => []

/-- The parsed value of `description_responseCode` when validation
succeeds: `none` for an absent key or blank text, else the parsed
integer. -/
def parsedResponseCode : Option String → Option Int
  | none => none
  | some s => if jsTrim s == "" then none else parseIntJS s

/-- Renders a field name for the aggregated error message: a leading
`description_` is replaced by the word `Description` and a space, as
the replace call in both form actions does. -/
def displayField (f : String) : String :=
  match f.toList with
  | 'd' :: 'e' :: 's' :: 'c' :: 'r' :: 'i' :: 'p' :: 't' :: 'i' :: 'o' :: 'n' :: '_' :: rest =>
      "Description " ++ String.mk rest
  | _ => f

/-- Aggregated validation message body, joining one entry per failed
field with `"; "` as in the update and direct-create actions. -/
def fieldErrorMessages (errs : FieldErrors) : String :=
  String.intercalate "; " (errs.map (fun e => displayField e.1 ++ ": " ++ e.2))

/-- All field errors of the update schema, in schema field order. -/
def updateFormErrors (raw : UpdateForm) : FieldErrors :=
  checkString "id" raw.id ++
  checkTitle "Title is required" raw.title ++
  checkStatus raw.status ++
  checkPriority raw.priority ++
  checkString "assignee" raw.assignee ++
  checkString "description_apiName" raw.description_apiName ++
  checkString "description_method" raw.description_method ++
  checkString "description_payload" raw.description_payload ++
  checkString "description_response" raw.description_response ++
  checkResponseCode raw.description_responseCode ++
  checkString "description_imageDataUri" raw.description_imageDataUri ++
  checkString "description_imageDataUri_clear" raw.description_imageDataUri_clear ++
  checkString "description_generalNotes" raw.description_generalNotes

/-- The typed data a successful parse of the update schema yields.  All
string fields are present: `FormData` values are strings or `null`, and
`null` fails every string field of the schema, so `.optional()` and
`.default` never leave a field unset on this input domain. -/
structure UpdateData where
  id : String
  title : String
  status : String
  priority : String
  assignee : String
  description_apiName : String
  description_method : String
  description_payload : String
  description_response : String
  description_responseCode : Option Int
  description_imageDataUri : String
  description_imageDataUri_clear : String
  description_generalNotes : String
deriving DecidableEq, Repr

/-- Embeds `updateIssueSchema.safeParse`: either the typed data or the
aggregated field errors. -/
def validateUpdateForm (raw : UpdateForm) : Except FieldErrors UpdateData :=
  match raw.id, raw.title, raw.status, raw.priority, raw.assignee,
    raw.description_apiName, raw.description_method, raw.description_payload,
    raw.description_response, raw.description_imageDataUri,
    raw.description_imageDataUri_clear, raw.description_generalNotes with
  | some id, some title, some status, some priority, some assignee,
    some apiName, some method, some payload, some response,
    some image, some clear, some notes =>
    if (updateFormErrors raw).isEmpty then
      .ok { id := id, title := title, status := status, priority := priority,
            assignee := assignee,
            description_apiName := apiName, description_method := method,
            description_payload := payload, description_response := response,
            description_responseCode := parsedResponseCode raw.description_responseCode,
            description_imageDataUri := image,
            description_imageDataUri_clear := clear,
            description_generalNotes := notes }
    else .error (updateFormErrors raw)
  | _, _, _, _, _, _, _, _, _, _, _, _ => .error (updateFormErrors raw)

/-- Embeds `x || undefined` on a validated string field: the empty
string becomes the absent value. -/
def emptyToNone (s : String) : Option String := if s == "" then none else some s

/-- Embeds the `actualApiMethod` computation shared by the update and
direct-create actions: the submitted method is kept only when truthy,
different from the not-applicable sentinel, and a member of the closed
method enum. -/
def resolveMethod (m : String) : Option String :=
  if !(m == "") && !(m == API_METHOD_NA_FORM_VALUE) && apiMethods.contains m
  then some m else none

/-- The `UpdateIssueActionState` result interface of `updateIssueAction`. -/
structure UpdateIssueActionState where
  status : ResStatus
  message : String
  issue : Option Issue := none
deriving DecidableEq, Repr

/-- The committed `newDescription` of `updateIssueAction`: every
sub-field is rebuilt from the submission (empty text stored as absent),
except the image reference, which keeps the prior stored value exactly
when the clear flag is not `"true"` and no new value is submitted. -/
def buildUpdateDescription (data : UpdateData) (existing : IssueDescription) :
    IssueDescription :=
  { apiName := emptyToNone data.description_apiName
    method := resolveMethod data.description_method
    payload := emptyToNone data.description_payload
    response := emptyToNone data.description_response
    responseCode := data.description_responseCode
    imageDataUri :=
      if data.description_imageDataUri_clear == "true" then none
      else match emptyToNone data.description_imageDataUri with
        | some v => some v
        | none => existing.imageDataUri
    generalNotes := emptyToNone data.description_generalNotes }

/-- Embeds `updateIssueAction` from actions.ts: validate, locate by
identifier (`findIndex`), rebuild the record, commit in place. -/
def updateIssueAction (raw : UpdateForm) (db : List Issue) (now : String) :
    UpdateIssueActionState × List Issue :=
  match validateUpdateForm raw with
  | .error errs =>
      ({ status := .error,
         message := "Validation failed: " ++ fieldErrorMessages errs }, db)
  | .ok data =>
    match db.find? (fun issue => issue.id == data.id) with
    | none => ({ status := .error, message := "Issue not found." }, db)
    | some existingIssue =>
      let updatedIssue : Issue := { existingIssue with
        title := data.title
        status := data.status
        priority := data.priority
        assignee := if data.assignee == UNASSIGNED_FORM_VALUE then none
                    else some data.assignee
        description := buildUpdateDescription data existingIssue.description
        updatedAt := now }
      ({ status := .success, message := "Issue updated successfully.",
         issue := some updatedIssue },
       updateFirst (fun issue => issue.id == data.id) (fun _ => updatedIssue) db)

/-- All field errors of the direct-create schema, in schema field
order. -/
def createFormErrors (raw : CreateForm) : FieldErrors :=
  checkTitle "Title is required." raw.title ++
  checkStatus raw.status ++
  checkPriority raw.priority ++
  checkString "assignee" raw.assignee ++
  checkString "description_apiName" raw.description_apiName ++
  checkString "description_method" raw.description_method ++
  checkString "description_payload" raw.description_payload ++
  checkString "description_response" raw.description_response ++
  checkResponseCode raw.description_responseCode ++
  checkString "description_imageDataUri" raw.description_imageDataUri ++
  checkString "description_generalNotes" raw.description_generalNotes

/-- The typed data a successful parse of the direct-create schema
yields. -/
structure CreateData where
  title : String
  status : String
  priority : String
  assignee : String
  description_apiName : String
  description_method : String
  description_payload : String
  description_response : String
  description_responseCode : Option Int
  description_imageDataUri : String
  description_generalNotes : String
deriving DecidableEq, Repr

/-- Embeds `createIssueDirectSchema.safeParse`. -/
def validateCreateForm (raw : CreateForm) : Except FieldErrors CreateData :=
  match raw.title, raw.status, raw.priority, raw.assignee,
    raw.description_apiName, raw.description_method, raw.description_payload,
    raw.description_response, raw.description_imageDataUri,
    raw.description_generalNotes with
  | some title, some status, some priority, some assignee,
    some apiName, some method, some payload, some response,
    some image, some notes =>
    if (createFormErrors raw).isEmpty then
      .ok { title := title, status := status, priority := priority,
            assignee := assignee,
            description_apiName := apiName, description_method := method,
            description_payload := payload, description_response := response,
            description_responseCode := parsedResponseCode raw.description_responseCode,
            description_imageDataUri := image,
            description_generalNotes := notes }
    else .error (createFormErrors raw)
  | _, _, _, _, _, _, _, _, _, _ => .error (createFormErrors raw)

/-- The `CreateIssueDirectActionState` result interface of
`createIssueDirectAction`. -/
structure CreateIssueDirectActionState where
  status : ResStatus
  message : String
  newIssueId : Option String := none
deriving DecidableEq, Repr

/-- The `newIssue` record `createIssueDirectAction` commits for
validated data. -/
def buildDirectIssue (data : CreateData) (newIssueId : String) (now : String) :
    Issue :=
  { id := newIssueId
    title := data.title
    description :=
      { apiName := emptyToNone data.description_apiName
        method := resolveMethod data.description_method
        payload := emptyToNone data.description_payload
        response := emptyToNone data.description_response
        responseCode := data.description_responseCode
        imageDataUri := emptyToNone data.description_imageDataUri
        generalNotes := emptyToNone data.description_generalNotes }
    status := data.status
    priority := data.priority
    assignee := if data.assignee == UNASSIGNED_FORM_VALUE || data.assignee == ""
                then none else some data.assignee
    reporter := "Manual Form Entry"
    createdAt := now
    updatedAt := now
    labels := [] }

/-- Embeds `createIssueDirectAction` from actions.ts: validate, mint an
identifier, build the record, `unshift` onto the store. -/
def createIssueDirectAction (raw : CreateForm) (db : List Issue) (now : String) :
    CreateIssueDirectActionState × List Issue :=
  match validateCreateForm raw with
  | .error errs =>
      ({ status := .error,
         message := "Validation failed: " ++ fieldErrorMessages errs }, db)
  | .ok data =>
    let newIssueId := generateNewIssueId db
    let newIssue := buildDirectIssue data newIssueId now
    ({ status := .success,
       message := "New issue " ++ newIssueId ++ ": \"" ++ data.title ++
         "\" created directly.",
       newIssueId := some newIssueId }, newIssue :: db)

/-- The `DeleteIssueActionState` result interface of
`deleteIssueAction`. -/
structure DeleteIssueActionState where
  status : ResStatus
  message : String
deriving DecidableEq, Repr

/-- Embeds `deleteIssueAction` from actions.ts: validate the submitted
identifier (`z.string().min(1)`, where an absent key is the `null`
value and fails as a non-string), locate by identifier, `splice` the
first match out. -/
def deleteIssueAction (rawIssueId : Option String) (db : List Issue) :
    DeleteIssueActionState × List Issue :=
  match rawIssueId with
  | none => ({ status := .error, message := "Expected string, received null" }, db)
  | some issueId =>
    if issueId == "" then
      ({ status := .error, message := "Issue ID is required for deletion." }, db)
    else
      match db.find? (fun issue => issue.id == issueId) with
      | none =>
          ({ status := .error, message := "Issue " ++ issueId ++ " not found." }, db)
      | some _ =>
          ({ status := .success,
             message := "Issue " ++ issueId ++ " deleted successfully." },
           removeFirst (fun issue => issue.id == issueId) db)

/-- The `AddAssigneeActionState` result interface of
`addAssigneeAction`. -/
structure AddAssigneeActionState where
  status : ResStatus
  message : String
deriving DecidableEq, Repr

/-- Embeds JavaScript `String.prototype.toLowerCase` character by
character (the names involved are plain text, for which the per-code
unit mapping agrees). -/
def toLowerCase (s : String) : String := String.mk (s.toList.map Char.toLower)

/-- Embeds `addAssigneeAction` from actions.ts: the name must be a
string of length 1 to 50 (zod runs the `min` and `max` checks in that
order, so an over-long name reports the `max` message), then it is
rejected when already present case-insensitively, else pushed onto the
registry. -/
def addAssigneeAction (rawName : Option String) (registry : List String) :
    AddAssigneeActionState × List String :=
  match rawName with
  | none => ({ status := .error, message := "Expected string, received null" }, registry)
  | some assigneeName =>
    if assigneeName == "" then
      ({ status := .error, message := "Assignee name cannot be empty." }, registry)
    else if assigneeName.length > 50 then
      ({ status := .error, message := "Assignee name too long." }, registry)
    else if (registry.map toLowerCase).contains (toLowerCase assigneeName) then
      ({ status := .error,
         message := "Assignee \"" ++ assigneeName ++ "\" already exists." }, registry)
    else
      ({ status := .success,
         message := "Assignee \"" ++ assigneeName ++ "\" added." },
       registry ++ [assigneeName])

lemma char_toNat_digit (d : Nat) (hd : d < 10) :
    (Char.ofNat (48 + d)).toNat = 48 + d := by
  interval_cases d <;> decide

lemma isDigitChar_ofNat_digit (d : Nat) (hd : d < 10) :
    isDigitChar (Char.ofNat (48 + d)) = true := by
  interval_cases d <;> decide

lemma digitsVal_snoc (l : List Char) (c : Char) :
    digitsVal (l ++ [c]) = digitsVal l * 10 + (c.toNat - 48) := by
  simp [digitsVal, List.foldl_append]

lemma natDigitsAux_val : ∀ (fuel n : Nat), n < fuel →
    digitsVal (natDigitsAux fuel n) = n := by
  intro fuel
  induction fuel with
  | zero => intro n h; omega
  | succ f ih =>
    intro n h
    by_cases h10 : n < 10
    · simp only [natDigitsAux, if_pos h10]
      show digitsVal ([] ++ [Char.ofNat (48 + n)]) = n
      rw [digitsVal_snoc, char_toNat_digit n h10]
      simp [digitsVal]
    · have hdiv : n / 10 < n := Nat.div_lt_self (by omega) (by omega)
      have hfuel : n / 10 < f := by omega
      simp only [natDigitsAux, if_neg h10]
      rw [digitsVal_snoc, ih _ hfuel, char_toNat_digit _ (Nat.mod_lt n (by omega))]
      omega

lemma natDigitsAux_all_digits : ∀ (fuel n : Nat), n < fuel →
    (natDigitsAux fuel n).all isDigitChar = true := by
  intro fuel
  induction fuel with
  | zero => intro n h; omega
  | succ f ih =>
    intro n h
    by_cases h10 : n < 10
    · simp only [natDigitsAux, if_pos h10, List.all_cons, List.all_nil,
        Bool.and_true]
      exact isDigitChar_ofNat_digit n h10
    · have hdiv : n / 10 < n := Nat.div_lt_self (by omega) (by omega)
      have hfuel : n / 10 < f := by omega
      simp only [natDigitsAux, if_neg h10, List.all_append, ih _ hfuel,
        List.all_cons, List.all_nil, Bool.and_true, Bool.true_and]
      exact isDigitChar_ofNat_digit _ (Nat.mod_lt n (by omega))

lemma natDigitsAux_ne_nil : ∀ (fuel n : Nat), n < fuel →
    natDigitsAux fuel n ≠ [] := by
  intro fuel n h
  cases fuel with
  | zero => omega
  | succ f =>
    by_cases h10 : n < 10
    · simp [natDigitsAux, if_pos h10]
    · simp [natDigitsAux, if_neg h10]

lemma natDigits_val (n : Nat) : digitsVal (natDigits n) = n :=
  natDigitsAux_val _ _ (Nat.lt_succ_self n)

lemma natDigits_all_digits (n : Nat) : (natDigits n).all isDigitChar = true :=
  natDigitsAux_all_digits _ _ (Nat.lt_succ_self n)

lemma natDigits_ne_nil (n : Nat) : natDigits n ≠ [] :=
  natDigitsAux_ne_nil _ _ (Nat.lt_succ_self n)

lemma digitsVal_cons_zero (l : List Char) : digitsVal ('0' :: l) = digitsVal l := by
  simp [digitsVal]

lemma digitsVal_replicate_zero_append (k : Nat) (l : List Char) :
    digitsVal (List.replicate k '0' ++ l) = digitsVal l := by
  induction k with
  | zero => simp
  | succ m ih => rw [List.replicate_succ, List.cons_append, digitsVal_cons_zero, ih]

lemma digitsVal_padStart3 (cs : List Char) :
    digitsVal (padStart3 cs) = digitsVal cs := by
  unfold padStart3
  split
  · rfl
  · exact digitsVal_replicate_zero_append _ _

lemma padStart3_all_digits (cs : List Char) (h : cs.all isDigitChar = true) :
    (padStart3 cs).all isDigitChar = true := by
  unfold padStart3
  split
  · exact h
  · rw [List.all_append, h]
    simp [List.all_eq_true, List.mem_replicate]
    right
    decide

lemma padStart3_ne_nil (cs : List Char) (h : cs ≠ []) : padStart3 cs ≠ [] := by
  unfold padStart3
  split
  · exact h
  · simp [h]

lemma sfSuffix_generateNewIssueId (db : List Issue) :
    sfSuffix (generateNewIssueId db) = some (maxSuffix db + 1) := by
  have hne := padStart3_ne_nil _ (natDigits_ne_nil (maxSuffix db + 1))
  have hall := padStart3_all_digits _ (natDigits_all_digits (maxSuffix db + 1))
  show (if !(padStart3 (natDigits (maxSuffix db + 1))).isEmpty &&
          (padStart3 (natDigits (maxSuffix db + 1))).all isDigitChar
        then some (digitsVal (padStart3 (natDigits (maxSuffix db + 1))))
        else none) = some (maxSuffix db + 1)
  rw [hall]
  have : (padStart3 (natDigits (maxSuffix db + 1))).isEmpty = false := by
    cases hcs : padStart3 (natDigits (maxSuffix db + 1)) with
    | nil => exact absurd hcs hne
    | cons a l => rfl
  rw [this]
  simp [digitsVal_padStart3, natDigits_val]

lemma le_foldl_max (l : List Nat) (a : Nat) : a ≤ l.foldl max a := by
  induction l generalizing a with
  | nil => simp
  | cons x xs ih =>
    rw [List.foldl_cons]
    exact le_trans (le_max_left a x) (ih (max a x))

lemma mem_le_foldl_max : ∀ (l : List Nat) (a b : Nat), b ∈ l → b ≤ l.foldl max a := by
  intro l
  induction l with
  | nil => intro a b hb; cases hb
  | cons x xs ih =>
    intro a b hb
    rw [List.foldl_cons]
    rcases List.mem_cons.mp hb with h | h
    · subst h
      exact le_trans (le_max_right a b) (le_foldl_max xs _)
    · exact ih (max a x) b h

lemma sfSuffix_le_maxSuffix (db : List Issue) (i : Issue) (n : Nat)
    (hi : i ∈ db) (hn : sfSuffix i.id = some n) : n ≤ maxSuffix db :=
  mem_le_foldl_max _ _ _ (List.mem_filterMap.mpr ⟨i, hi, hn⟩)

lemma find?_eq_none_of_ids {db : List Issue} {tid : String}
    (h : ∀ i ∈ db, i.id ≠ tid) :
    db.find? (fun issue => issue.id == tid) = none := by
  rw [List.find?_eq_none]
  intro x hx
  simp only [beq_iff_eq]
  exact h x hx

lemma updateFirst_of_find? (p : Issue → Bool) (f : Issue → Issue) :
    ∀ (l : List Issue) (x : Issue), l.find? p = some x →
      ∃ pre post, l = pre ++ x :: post ∧ (∀ y ∈ pre, p y = false) ∧
        p x = true ∧ updateFirst p f l = pre ++ f x :: post := by
  intro l
  induction l with
  | nil => intro x hx; simp at hx
  | cons i rest ih =>
    intro x hx
    by_cases hp : p i = true
    · rw [List.find?_cons_of_pos _ hp] at hx
      injection hx with hx
      subst hx
      exact ⟨[], rest, rfl, by simp, hp, by simp [updateFirst, hp]⟩
    · rw [List.find?_cons_of_neg _ (by simpa using hp)] at hx
      obtain ⟨pre, post, hdecomp, hpre, hpx, hupd⟩ := ih x hx
      refine ⟨i :: pre, post, by simp [hdecomp], ?_, hpx, ?_⟩
      · intro y hy
        rcases List.mem_cons.mp hy with h | h
        · subst h; simpa using hp
        · exact hpre y h
      · simp [updateFirst, hp, hupd]

lemma removeFirst_of_find? (p : Issue → Bool) :
    ∀ (l : List Issue) (x : Issue), l.find? p = some x →
      ∃ pre post, l = pre ++ x :: post ∧ (∀ y ∈ pre, p y = false) ∧
        p x = true ∧ removeFirst p l = pre ++ post := by
  intro l
  induction l with
  | nil => intro x hx; simp at hx
  | cons i rest ih =>
    intro x hx
    by_cases hp : p i = true
    · rw [List.find?_cons_of_pos _ hp] at hx
      injection hx with hx
      subst hx
      exact ⟨[], rest, rfl, by simp, hp, by simp [removeFirst, hp]⟩
    · rw [List.find?_cons_of_neg _ (by simpa using hp)] at hx
      obtain ⟨pre, post, hdecomp, hpre, hpx, hrem⟩ := ih x hx
      refine ⟨i :: pre, post, by simp [hdecomp], ?_, hpx, ?_⟩
      · intro y hy
        rcases List.mem_cons.mp hy with h | h
        · subst h; simpa using hp
        · exact hpre y h
      · simp [removeFirst, hp, hrem]

lemma mem_updateFirst {p : Issue → Bool} {f : Issue → Issue} :
    ∀ {l : List Issue} {j : Issue}, j ∈ updateFirst p f l →
      j ∈ l ∨ ∃ x, x ∈ l ∧ j = f x := by
  intro l
  induction l with
  | nil => intro j hj; simp [updateFirst] at hj
  | cons i rest ih =>
    intro j hj
    by_cases hp : p i = true
    · simp only [updateFirst, if_pos hp] at hj
      rcases List.mem_cons.mp hj with h | h
      · exact Or.inr ⟨i, List.mem_cons_self i rest, h⟩
      · exact Or.inl (List.mem_cons_of_mem i h)
    · simp only [updateFirst, if_neg hp] at hj
      rcases List.mem_cons.mp hj with h | h
      · exact Or.inl (h ▸ List.mem_cons_self i rest)
      · rcases ih h with h2 | ⟨x, hx, hfx⟩
        · exact Or.inl (List.mem_cons_of_mem i h2)
        · exact Or.inr ⟨x, List.mem_cons_of_mem i hx, hfx⟩

lemma find?_beq_id {db : List Issue} {tid : String} {x : Issue}
    (h : db.find? (fun issue => issue.id == tid) = some x) : x.id = tid := by
  have := List.find?_some h
  simpa using this

/-- A seed record with identifier `SF-007`, used to instantiate the
universally quantified theorems at a concrete store. -/
def wOld : Issue :=
  { id := "SF-007", title := "Old", description := {}, status := "To Do",
    priority := "Low", reporter := "seed", createdAt := "t0", updatedAt := "t0" }

/-- C1 counterexample: the claim that an identifier minted for the SF
prefix strictly exceeds every identifier ever minted, so that a deleted
identifier is never issued again, is false.  Concretely: on the empty
store a command create mints `SF-001`; after deleting that record the
store is empty again and the generator mints `SF-001` a second time,
reissuing the deleted identifier. -/
theorem C1_counterexample :
    generateNewIssueId [] = "SF-001" ∧
    (processIssueCommand { action := "createIssue", title := some "Fix login" }
        [] "t0").2.map Issue.id = ["SF-001"] ∧
    (deleteIssueAction (some "SF-001")
        (processIssueCommand { action := "createIssue", title := some "Fix login" }
          [] "t0").2).1.status = ResStatus.success ∧
    (deleteIssueAction (some "SF-001")
        (processIssueCommand { action := "createIssue", title := some "Fix login" }
          [] "t0").2).2 = [] ∧
    generateNewIssueId
        (deleteIssueAction (some "SF-001")
          (processIssueCommand { action := "createIssue", title := some "Fix login" }
            [] "t0").2).2 = "SF-001" := by
  decide

/-- C1 (amended): the identifier minted by `generateNewIssueId` has a
numeric suffix strictly exceeding the suffix of every well-formed SF
identifier currently present in the store, and therefore differs from
the identifier of every record currently in the store; identifiers of
records deleted before the call can be reissued, since the generator
only scans the current store. -/
theorem C1_amended (db : List Issue) :
    sfSuffix (generateNewIssueId db) = some (maxSuffix db + 1) ∧
    (∀ i ∈ db, ∀ n, sfSuffix i.id = some n → n < maxSuffix db + 1) ∧
    (∀ i ∈ db, i.id ≠ generateNewIssueId db) := by
  refine ⟨sfSuffix_generateNewIssueId db, ?_, ?_⟩
  · intro i hi n hn
    exact Nat.lt_succ_of_le (sfSuffix_le_maxSuffix db i n hi hn)
  · intro i hi heq
    have h1 : sfSuffix i.id = some (maxSuffix db + 1) := by
      rw [heq]; exact sfSuffix_generateNewIssueId db
    have h2 := sfSuffix_le_maxSuffix db i _ hi h1
    omega

/-- Witness for C1 (amended) at the singleton store holding `SF-007`:
the minted identifier has suffix 8 and differs from the stored one. -/
theorem C1_amended_witness :
    sfSuffix (generateNewIssueId [wOld]) = some (maxSuffix [wOld] + 1) ∧
    wOld.id ≠ generateNewIssueId [wOld] :=
  ⟨(C1_amended [wOld]).1, (C1_amended [wOld]).2.2 wOld (by decide)⟩

/-- A seed record with identifier `SF-001` carrying a populated
description, used to instantiate the update theorems concretely. -/
def wIssue : Issue :=
  { id := "SF-001", title := "A",
    description := { apiName := some "Users", imageDataUri := some "img1",
                     generalNotes := some "Seed notes" },
    status := "To Do", priority := "Medium", assignee := some "Alice",
    reporter := "seed", createdAt := "t0", updatedAt := "t0" }

/-- A fully populated, valid update submission targeting `SF-001` whose
description text fields are all submitted empty. -/
def wUpdateForm : UpdateForm :=
  { id := some "SF-001", title := some "B", status := some "Done",
    priority := some "High", assignee := some "Alice",
    description_apiName := some "", description_method := some "",
    description_payload := some "", description_response := some "",
    description_responseCode := some "", description_imageDataUri := some "",
    description_imageDataUri_clear := some "",
    description_generalNotes := some "" }

/-- The typed data `wUpdateForm` validates to. -/
def wUpdateData : UpdateData :=
  { id := "SF-001", title := "B", status := "Done", priority := "High",
    assignee := "Alice", description_apiName := "", description_method := "",
    description_payload := "", description_response := "",
    description_responseCode := none, description_imageDataUri := "",
    description_imageDataUri_clear := "", description_generalNotes := "" }

/-- C2 counterexample: the claim that a description sub-field with no
new value supplied keeps its previously stored value in the committed
record is false.  The seed record stores `apiName = "Users"`; an update
submitting the empty string for `apiName` commits successfully and the
committed record has `apiName` absent, discarding the prior value.  A
submission literally omitting the `description_apiName` key does not
merge either: it fails validation and no record is committed. -/
theorem C2_counterexample :
    wIssue.description.apiName = some "Users" ∧
    (updateIssueAction wUpdateForm [wIssue] "t1").1.status = ResStatus.success ∧
    (updateIssueAction wUpdateForm [wIssue] "t1").1.issue.map
      (fun issue => issue.description.apiName) = some none ∧
    (updateIssueAction { wUpdateForm with description_apiName := none }
        [wIssue] "t1").1.status = ResStatus.error ∧
    (updateIssueAction { wUpdateForm with description_apiName := none }
        [wIssue] "t1").2 = [wIssue] := by
  decide

/-- C2 (amended): for a valid update whose target exists, the committed
description is rebuilt from the submission: every sub-field except the
image reference is a function of the submitted data alone (independent
of the prior description), with an empty submitted text stored as
absent; only the image reference consults the prior record.  A
submission missing a description key entirely fails validation, leaving
the store unchanged. -/
theorem C2_amended (raw : UpdateForm) (db : List Issue) (now : String)
    (data : UpdateData) (existing : Issue)
    (hval : validateUpdateForm raw = Except.ok data)
    (hfind : db.find? (fun issue => issue.id == data.id) = some existing) :
    (updateIssueAction raw db now).1.status = ResStatus.success ∧
    (updateIssueAction raw db now).1.issue.map Issue.description =
      some (buildUpdateDescription data existing.description) ∧
    ∀ d : IssueDescription,
      (buildUpdateDescription data d).apiName = emptyToNone data.description_apiName ∧
      (buildUpdateDescription data d).method = resolveMethod data.description_method ∧
      (buildUpdateDescription data d).payload = emptyToNone data.description_payload ∧
      (buildUpdateDescription data d).response = emptyToNone data.description_response ∧
      (buildUpdateDescription data d).responseCode = data.description_responseCode ∧
      (buildUpdateDescription data d).generalNotes =
        emptyToNone data.description_generalNotes := by
  refine ⟨?_, ?_, ?_⟩
  · simp [updateIssueAction, hval, hfind]
  · simp [updateIssueAction, hval, hfind]
  · intro d
    exact ⟨rfl, rfl, rfl, rfl, rfl, rfl⟩

/-- Witness for C2 (amended) at the seed store and the empty-field
update submission. -/
theorem C2_amended_witness :
    validateUpdateForm wUpdateForm = Except.ok wUpdateData ∧
    ([wIssue].find? (fun issue => issue.id == wUpdateData.id) = some wIssue) ∧
    (updateIssueAction wUpdateForm [wIssue] "t1").1.status = ResStatus.success ∧
    (updateIssueAction wUpdateForm [wIssue] "t1").1.issue.map Issue.description =
      some (buildUpdateDescription wUpdateData wIssue.description) :=
  ⟨by rfl, by decide,
   (C2_amended wUpdateForm [wIssue] "t1" wUpdateData wIssue (by rfl) (by decide)).1,
   (C2_amended wUpdateForm [wIssue] "t1" wUpdateData wIssue (by rfl) (by decide)).2.1⟩

/-- C3 counterexample: the claim that a command with an unsupported
intent kind and a resolved target identifier yields a success result is
false.  For the intent kind `archiveIssue` aimed at the existing record
`SF-001`, the orchestrator returns an error result (message `Unknown or
incomplete action for issue SF-001.`); the store is indeed unchanged. -/
theorem C3_counterexample :
    (processIssueCommand { action := "archiveIssue", issueId := some "SF-001" }
        [wIssue] "t1").1.status = ResStatus.error ∧
    (processIssueCommand { action := "archiveIssue", issueId := some "SF-001" }
        [wIssue] "t1").1.message =
      "Unknown or incomplete action for issue SF-001." ∧
    (processIssueCommand { action := "archiveIssue", issueId := some "SF-001" }
        [wIssue] "t1").2 = [wIssue] := by
  decide

/-- C3 (amended): a command whose intent kind is none of the six
supported kinds but which carries a resolved identifier of an existing
record is answered with an error result naming the identifier
(`Unknown or incomplete action for issue ...`), not a success result;
no store mutation is performed.  Only when no identifier is resolved
(and the kind is not a create) is an unknown intent a successful
no-op. -/
theorem C3_amended (interp : InterpretOut) (db : List Issue) (now tid : String)
    (ha : interp.action ∉ ["createIssue", "assignIssue", "updateIssueStatus",
      "updateIssuePriority", "updateIssueDescription", "updateIssueTitle"])
    (hid : interp.issueId = some tid) (htid : tid ≠ "")
    (hfound : ∃ x, db.find? (fun issue => issue.id == tid) = some x) :
    processIssueCommand interp db now =
      ({ status := ResStatus.error,
         message := "Unknown or incomplete action for issue " ++ tid ++ ".",
         interpretation := some interp, updatedIssueId := none }, db) := by
  obtain ⟨x, hx⟩ := hfound
  simp only [List.mem_cons, List.not_mem_nil, or_false] at ha
  push_neg at ha
  obtain ⟨h1, h2, h3, h4, h5, h6⟩ := ha
  simp [processIssueCommand, hid, strTruthy, htid, hx, h1, h2, h3, h4, h5, h6]

/-- Witness for C3 (amended) with the unsupported kind `archiveIssue`
against the singleton store holding `SF-007`. -/
theorem C3_amended_witness :
    processIssueCommand { action := "archiveIssue", issueId := some "SF-007" }
        [wOld] "t1" =
      ({ status := ResStatus.error,
         message := "Unknown or incomplete action for issue SF-007.",
         interpretation := some { action := "archiveIssue", issueId := some "SF-007" },
         updatedIssueId := none }, [wOld]) :=
  C3_amended { action := "archiveIssue", issueId := some "SF-007" } [wOld] "t1"
    "SF-007" (by decide) rfl (by decide) ⟨wOld, by decide⟩

lemma resolveAssigneeAI_ne_unassigned (a : Option String) :
    resolveAssigneeAI a ≠ some "unassigned" := by
  unfold resolveAssigneeAI
  cases a with
  | none => simp
  | some s =>
    by_cases h : (s == "unassigned" || s == "") = true
    · simp [h]
    · simp only [Bool.or_eq_true, beq_iff_eq] at h
      push_neg at h
      simp [h.1, h.2]

lemma resolveAssigneeAI_ne_empty (a : Option String) :
    resolveAssigneeAI a ≠ some "" := by
  unfold resolveAssigneeAI
  cases a with
  | none => simp
  | some s =>
    by_cases h : (s == "unassigned" || s == "") = true
    · simp [h]
    · simp only [Bool.or_eq_true, beq_iff_eq] at h
      push_neg at h
      simp [h.1, h.2]

/-- An assign command for the unregistered name `Zork` aimed at
`SF-001`. -/
def wAssignInterp : InterpretOut :=
  { action := "assignIssue", issueId := some "SF-001",
    assignee := some "Zork" }

/-- C4 counterexample: the claim that a stored assignee is always a
name from the assignee registry or absent, with the empty string never
stored, is false.  An assign command for the name `Zork` succeeds and
stores `Zork` even against a registry containing only `Alice` (no
mutation path consults the registry), and a form update submitting an
empty assignee string succeeds and stores the raw empty string. -/
theorem C4_counterexample :
    (processIssueCommand wAssignInterp [wIssue] "t1").1.status = ResStatus.success ∧
    (processIssueCommand wAssignInterp [wIssue] "t1").2.map Issue.assignee =
      [some "Zork"] ∧
    "Zork" ∉ (["Alice"] : List String) ∧
    (updateIssueAction { wUpdateForm with assignee := some "" }
        [wIssue] "t1").1.status = ResStatus.success ∧
    (updateIssueAction { wUpdateForm with assignee := some "" }
        [wIssue] "t1").2.map Issue.assignee = [some ""] := by
  decide

/-- C4 (amended): no mutation path introduces a sentinel assignee into
the store.  Every record of the post-state either keeps an assignee
value already present in the pre-state or carries a sanitized one: the
direct-create path never stores the form sentinel nor the empty string,
the command paths never store the interpreter sentinel `unassigned` nor
the empty string, and the form-update path never stores the form
sentinel (it may store any other submitted string, including the empty
one).  Registry membership is not enforced by any path. -/
theorem C4_amended :
    (∀ (raw : CreateForm) (db : List Issue) (now : String),
       ∀ j ∈ (createIssueDirectAction raw db now).2,
         (∃ x ∈ db, j.assignee = x.assignee) ∨
         (j.assignee ≠ some UNASSIGNED_FORM_VALUE ∧ j.assignee ≠ some "")) ∧
    (∀ (interp : InterpretOut) (db : List Issue) (now : String),
       ∀ j ∈ (processIssueCommand interp db now).2,
         (∃ x ∈ db, j.assignee = x.assignee) ∨
         (j.assignee ≠ some "unassigned" ∧ j.assignee ≠ some "")) ∧
    (∀ (raw : UpdateForm) (db : List Issue) (now : String),
       ∀ j ∈ (updateIssueAction raw db now).2,
         (∃ x ∈ db, j.assignee = x.assignee) ∨
         j.assignee ≠ some UNASSIGNED_FORM_VALUE) := by
  refine ⟨?_, ?_, ?_⟩
  · intro raw db now j hj
    rcases hval : validateCreateForm raw with errs | data
    · simp only [createIssueDirectAction, hval] at hj
      exact Or.inl ⟨j, hj, rfl⟩
    · simp only [createIssueDirectAction, hval, List.mem_cons] at hj
      rcases hj with hj | hj
      · subst hj
        right
        by_cases hc : (data.assignee == UNASSIGNED_FORM_VALUE || data.assignee == "") = true
        · simp [buildDirectIssue, hc]
        · simp only [Bool.or_eq_true, beq_iff_eq] at hc
          push_neg at hc
          simp [buildDirectIssue, hc.1, hc.2]
      · exact Or.inl ⟨j, hj, rfl⟩
  · intro interp db now j hj
    by_cases hcreate : (interp.action == "createIssue") = true
    · by_cases ht : strTruthy interp.title = true
      · simp only [processIssueCommand, hcreate, ht, Bool.not_true,
          Bool.false_eq_true, if_false, if_true, List.mem_cons] at hj
        rcases hj with hj | hj
        · subst hj
          exact Or.inr ⟨resolveAssigneeAI_ne_unassigned _, resolveAssigneeAI_ne_empty _⟩
        · exact Or.inl ⟨j, hj, rfl⟩
      · simp only [processIssueCommand, hcreate, ht] at hj
        exact Or.inl ⟨j, by simpa using hj, rfl⟩
    · by_cases hid : strTruthy interp.issueId = true
      · cases hfind : db.find? (fun issue => issue.id == interp.issueId.getD "") with
        | none =>
          simp only [processIssueCommand, hcreate, hid, hfind] at hj
          exact Or.inl ⟨j, by simpa using hj, rfl⟩
        | some x =>
          have hxdb : x ∈ db := List.mem_of_find?_eq_some hfind
          by_cases hassign : (interp.action == "assignIssue" && strTruthy interp.assignee) = true
          · simp only [processIssueCommand, hcreate, hid, hfind, hassign, if_true] at hj
            rcases mem_updateFirst hj with hj | ⟨y, hy, rfl⟩
            · exact Or.inl ⟨j, hj, rfl⟩
            · exact Or.inr ⟨resolveAssigneeAI_ne_unassigned _, resolveAssigneeAI_ne_empty _⟩
          · by_cases hstat : (interp.action == "updateIssueStatus" && strTruthy interp.status) = true
            · by_cases hvalid : issueStatuses.contains (interp.status.getD "") = true
              · simp only [processIssueCommand, hcreate, hid, hfind, hassign, hstat,
                  hvalid, Bool.not_true, Bool.false_eq_true, if_false, if_true] at hj
                rcases mem_updateFirst hj with hj | ⟨y, hy, rfl⟩
                · exact Or.inl ⟨j, hj, rfl⟩
                · exact Or.inl ⟨x, hxdb, rfl⟩
              · simp only [processIssueCommand, hcreate, hid, hfind, hassign, hstat,
                  hvalid] at hj
                exact Or.inl ⟨j, by simpa using hj, rfl⟩
            · by_cases hprio : (interp.action == "updateIssuePriority" && strTruthy interp.priority) = true
              · by_cases hvalid : issuePriorities.contains (interp.priority.getD "") = true
                · simp only [processIssueCommand, hcreate, hid, hfind, hassign, hstat,
                    hprio, hvalid, Bool.not_true, Bool.false_eq_true, if_false, if_true] at hj
                  rcases mem_updateFirst hj with hj | ⟨y, hy, rfl⟩
                  · exact Or.inl ⟨j, hj, rfl⟩
                  · exact Or.inl ⟨x, hxdb, rfl⟩
                · simp only [processIssueCommand, hcreate, hid, hfind, hassign, hstat,
                    hprio, hvalid] at hj
                  exact Or.inl ⟨j, by simpa using hj, rfl⟩
              · by_cases hdesc : (interp.action == "updateIssueDescription" && interp.description.isSome) = true
                · simp only [processIssueCommand, hcreate, hid, hfind, hassign, hstat,
                    hprio, hdesc, if_true] at hj
                  rcases mem_updateFirst hj with hj | ⟨y, hy, rfl⟩
                  · exact Or.inl ⟨j, hj, rfl⟩
                  · exact Or.inl ⟨x, hxdb, rfl⟩
                · by_cases htitle : (interp.action == "updateIssueTitle" && strTruthy interp.title) = true
                  · simp only [processIssueCommand, hcreate, hid, hfind, hassign, hstat,
                      hprio, hdesc, htitle, if_true] at hj
                    rcases mem_updateFirst hj with hj | ⟨y, hy, rfl⟩
                    · exact Or.inl ⟨j, hj, rfl⟩
                    · exact Or.inl ⟨x, hxdb, rfl⟩
                  · simp only [processIssueCommand, hcreate, hid, hfind, hassign, hstat,
                      hprio, hdesc, htitle] at hj
                    exact Or.inl ⟨j, by simpa using hj, rfl⟩
      · simp only [processIssueCommand, hcreate, hid] at hj
        exact Or.inl ⟨j, by simpa using hj, rfl⟩
  · intro raw db now j hj
    rcases hval : validateUpdateForm raw with errs | data
    · simp only [updateIssueAction, hval] at hj
      exact Or.inl ⟨j, hj, rfl⟩
    · cases hfind : db.find? (fun issue => issue.id == data.id) with
      | none =>
        simp only [updateIssueAction, hval, hfind] at hj
        exact Or.inl ⟨j, hj, rfl⟩
      | some x =>
        simp only [updateIssueAction, hval, hfind] at hj
        rcases mem_updateFirst hj with hj | ⟨y, hy, rfl⟩
        · exact Or.inl ⟨j, hj, rfl⟩
        · by_cases hc : (data.assignee == UNASSIGNED_FORM_VALUE) = true
          · simp [hc]
          · right
            simp only [beq_iff_eq] at hc
            simp [hc]

/-- A successfully parsed create command used to instantiate the
command-path theorems: create `Fix login` on the empty store. -/
def wCreateInterp : InterpretOut := { action := "createIssue", title := some "Fix login" }

/-- The record the command create mints on the empty store at time
`t1`. -/
def wNewIssue : Issue :=
  { id := "SF-001", title := "Fix login",
    description := { generalNotes := some "" },
    status := "To Do", priority := "Medium", assignee := none,
    reporter := "AI Command Bar", createdAt := "t1", updatedAt := "t1" }

/-- Witness for C4 (amended): the record minted by the command create
on the empty store carries a sanitized assignee. -/
theorem C4_amended_witness :
    (∃ x ∈ ([] : List Issue), wNewIssue.assignee = x.assignee) ∨
    (wNewIssue.assignee ≠ some "unassigned" ∧ wNewIssue.assignee ≠ some "") :=
  C4_amended.2.1 wCreateInterp [] "t1" wNewIssue (by decide)

/-- C5: the committed image reference of a successful form update obeys
the three-way law.  With the clear flag not set to `true` and an empty
submitted image value, the prior image is kept unchanged; with the
clear flag set to `true`, the image becomes absent regardless of any
co-supplied value; with a non-empty submitted value and the clear flag
not set to `true`, the submitted value replaces the prior one. -/
theorem C5_image_three_way (raw : UpdateForm) (db : List Issue) (now : String)
    (data : UpdateData) (existing : Issue)
    (hval : validateUpdateForm raw = Except.ok data)
    (hfind : db.find? (fun issue => issue.id == data.id) = some existing) :
    (updateIssueAction raw db now).1.status = ResStatus.success ∧
    ∃ upd, (updateIssueAction raw db now).1.issue = some upd ∧
      (data.description_imageDataUri_clear ≠ "true" →
        data.description_imageDataUri = "" →
        upd.description.imageDataUri = existing.description.imageDataUri) ∧
      (data.description_imageDataUri_clear = "true" →
        upd.description.imageDataUri = none) ∧
      (data.description_imageDataUri_clear ≠ "true" →
        data.description_imageDataUri ≠ "" →
        upd.description.imageDataUri = some data.description_imageDataUri) := by
  refine ⟨by simp [updateIssueAction, hval, hfind], ?_⟩
  refine ⟨{ existing with
      title := data.title, status := data.status, priority := data.priority,
      assignee := if data.assignee == UNASSIGNED_FORM_VALUE then none
                  else some data.assignee,
      description := buildUpdateDescription data existing.description,
      updatedAt := now }, ?_, ?_, ?_, ?_⟩
  · simp [updateIssueAction, hval, hfind]
  · intro h1 h2
    simp [buildUpdateDescription, emptyToNone, h1, h2]
  · intro h1
    simp [buildUpdateDescription, h1]
  · intro h1 h2
    simp [buildUpdateDescription, emptyToNone, h1, h2]

/-- Witness for C5 at the seed store: the valid update `wUpdateForm`
(empty image value, clear flag not set) commits successfully and the
three-way law holds for its committed record. -/
theorem C5_image_three_way_witness :
    (updateIssueAction wUpdateForm [wIssue] "t1").1.status = ResStatus.success ∧
    ∃ upd, (updateIssueAction wUpdateForm [wIssue] "t1").1.issue = some upd ∧
      (wUpdateData.description_imageDataUri_clear ≠ "true" →
        wUpdateData.description_imageDataUri = "" →
        upd.description.imageDataUri = wIssue.description.imageDataUri) ∧
      (wUpdateData.description_imageDataUri_clear = "true" →
        upd.description.imageDataUri = none) ∧
      (wUpdateData.description_imageDataUri_clear ≠ "true" →
        wUpdateData.description_imageDataUri ≠ "" →
        upd.description.imageDataUri = some wUpdateData.description_imageDataUri) :=
  C5_image_three_way wUpdateForm [wIssue] "t1" wUpdateData wIssue (by rfl) (by decide)

lemma contains_eq_false_of_not_mem : ∀ {l : List String} {s : String},
    s ∉ l → l.contains s = false := by
  intro l
  induction l with
  | nil => intro s h; rfl
  | cons x xs ih =>
    intro s h
    simp only [List.mem_cons] at h
    push_neg at h
    simp [List.contains_cons, beq_iff_eq, h.1, ih h.2, h.2]

lemma validateCreateForm_error_of_errors (raw : CreateForm)
    (h : createFormErrors raw ≠ []) :
    validateCreateForm raw = Except.error (createFormErrors raw) := by
  have h2 : (createFormErrors raw).isEmpty = false := by
    cases hc : createFormErrors raw with
    | nil => exact absurd hc h
    | cons a l => rfl
  unfold validateCreateForm
  split
  · rw [h2]
    simp
  · rfl

/-- C6: enum validation is asymmetric between the two create paths.  A
direct form create whose status (or priority) value lies outside its
closed enum fails validation with an error entry naming that field and
leaves the store unchanged, while an interpreter-originated create with
the same out-of-enum value succeeds and silently stores the default
(status `To Do`, priority `Medium`) on the newly inserted head
record. -/
theorem C6_enum_validation_asymmetry :
    (∀ (raw : CreateForm) (db : List Issue) (now s : String),
       raw.status = some s → s ∉ issueStatuses →
       ("status", "Invalid status value") ∈ createFormErrors raw ∧
       (createIssueDirectAction raw db now).1.status = ResStatus.error ∧
       (createIssueDirectAction raw db now).1.message =
         "Validation failed: " ++ fieldErrorMessages (createFormErrors raw) ∧
       (createIssueDirectAction raw db now).2 = db) ∧
    (∀ (raw : CreateForm) (db : List Issue) (now p : String),
       raw.priority = some p → p ∉ issuePriorities →
       ("priority", "Invalid priority value") ∈ createFormErrors raw ∧
       (createIssueDirectAction raw db now).1.status = ResStatus.error ∧
       (createIssueDirectAction raw db now).1.message =
         "Validation failed: " ++ fieldErrorMessages (createFormErrors raw) ∧
       (createIssueDirectAction raw db now).2 = db) ∧
    (∀ (interp : InterpretOut) (db : List Issue) (now s : String),
       interp.action = "createIssue" → strTruthy interp.title = true →
       interp.status = some s → s ∉ issueStatuses →
       (processIssueCommand interp db now).1.status = ResStatus.success ∧
       ∃ rest, (processIssueCommand interp db now).2.map Issue.status =
         "To Do" :: rest) ∧
    (∀ (interp : InterpretOut) (db : List Issue) (now p : String),
       interp.action = "createIssue" → strTruthy interp.title = true →
       interp.priority = some p → p ∉ issuePriorities →
       (processIssueCommand interp db now).1.status = ResStatus.success ∧
       ∃ rest, (processIssueCommand interp db now).2.map Issue.priority =
         "Medium" :: rest) := by
  refine ⟨?_, ?_, ?_, ?_⟩
  · intro raw db now s hs hsm
    have hcontains := contains_eq_false_of_not_mem hsm
    have hmem : ("status", "Invalid status value") ∈ createFormErrors raw := by
      simp [createFormErrors, checkStatus, hs, hcontains]
      tauto
    have hne : createFormErrors raw ≠ [] := by
      intro hnil
      rw [hnil] at hmem
      cases hmem
    have hv := validateCreateForm_error_of_errors raw hne
    exact ⟨hmem, by simp [createIssueDirectAction, hv],
      by simp [createIssueDirectAction, hv], by simp [createIssueDirectAction, hv]⟩
  · intro raw db now p hp hpm
    have hcontains := contains_eq_false_of_not_mem hpm
    have hmem : ("priority", "Invalid priority value") ∈ createFormErrors raw := by
      simp [createFormErrors, checkPriority, hp, hcontains]
      tauto
    have hne : createFormErrors raw ≠ [] := by
      intro hnil
      rw [hnil] at hmem
      cases hmem
    have hv := validateCreateForm_error_of_errors raw hne
    exact ⟨hmem, by simp [createIssueDirectAction, hv],
      by simp [createIssueDirectAction, hv], by simp [createIssueDirectAction, hv]⟩
  · intro interp db now s ha ht hs hsm
    have hcontains := contains_eq_false_of_not_mem hsm
    constructor
    · simp [processIssueCommand, ha, ht]
    · refine ⟨db.map Issue.status, ?_⟩
      simp [processIssueCommand, ha, ht, hs, hcontains]
      exact fun h2 => absurd h2 hsm
  · intro interp db now p ha ht hp hpm
    have hcontains := contains_eq_false_of_not_mem hpm
    constructor
    · simp [processIssueCommand, ha, ht]
    · refine ⟨db.map Issue.priority, ?_⟩
      simp [processIssueCommand, ha, ht, hp, hcontains]
      exact fun h2 => absurd h2 hpm

/-- A valid direct-create submission with an in-enum status. -/
def wCreateForm : CreateForm :=
  { title := some "New", status := some "To Do", priority := some "Medium",
    assignee := some "", description_apiName := some "",
    description_method := some "", description_payload := some "",
    description_response := some "", description_responseCode := some "",
    description_imageDataUri := some "", description_generalNotes := some "" }

/-- Witness for C6: the direct form create with status `Unknown` fails
validation with an error naming the status field and leaves the seed
store unchanged, while the AI create with status `Unknown` succeeds and
stores `To Do` at the head. -/
theorem C6_enum_validation_asymmetry_witness :
    (("status", "Invalid status value") ∈
        createFormErrors { wCreateForm with status := some "Unknown" } ∧
      (createIssueDirectAction { wCreateForm with status := some "Unknown" }
          [wIssue] "t1").1.status = ResStatus.error ∧
      (createIssueDirectAction { wCreateForm with status := some "Unknown" }
          [wIssue] "t1").1.message =
        "Validation failed: " ++ fieldErrorMessages
          (createFormErrors { wCreateForm with status := some "Unknown" }) ∧
      (createIssueDirectAction { wCreateForm with status := some "Unknown" }
          [wIssue] "t1").2 = [wIssue]) ∧
    ((processIssueCommand { wCreateInterp with status := some "Unknown" }
          [wIssue] "t1").1.status = ResStatus.success ∧
      ∃ rest, (processIssueCommand { wCreateInterp with status := some "Unknown" }
          [wIssue] "t1").2.map Issue.status = "To Do" :: rest) :=
  ⟨C6_enum_validation_asymmetry.1 { wCreateForm with status := some "Unknown" }
      [wIssue] "t1" "Unknown" rfl (by decide),
   C6_enum_validation_asymmetry.2.2.1 { wCreateInterp with status := some "Unknown" }
      [wIssue] "t1" "Unknown" rfl (by decide) rfl (by decide)⟩

/-- C7: an interpreter-originated create on the empty store with a
non-empty title and status, priority, and assignee all omitted commits
a record with identifier `SF-001`, status `To Do`, priority `Medium`,
assignee absent, both timestamps set to the creation instant, inserted
at the head of the (here single-element) collection, and reports
success with the new identifier. -/
theorem C7_create_empty_store_defaults (interp : InterpretOut) (now t : String)
    (ha : interp.action = "createIssue") (ht : interp.title = some t)
    (htne : t ≠ "") (hs : interp.status = none) (hp : interp.priority = none)
    (hassign : interp.assignee = none) :
    ∃ newIssue,
      processIssueCommand interp [] now =
        ({ status := ResStatus.success,
           message := "New issue SF-001: \"" ++ t ++ "\" created.",
           interpretation := some interp, updatedIssueId := some "SF-001" },
         [newIssue]) ∧
      newIssue.id = "SF-001" ∧ newIssue.title = t ∧
      newIssue.status = "To Do" ∧ newIssue.priority = "Medium" ∧
      newIssue.assignee = none ∧ newIssue.createdAt = now ∧
      newIssue.updatedAt = now := by
  have hgen : generateNewIssueId [] = "SF-001" := by decide
  refine ⟨{ id := "SF-001", title := t,
            description := { generalNotes := some (interp.description.getD "") },
            status := "To Do", priority := "Medium", assignee := none,
            reporter := "AI Command Bar", createdAt := now, updatedAt := now,
            labels := [] }, ?_, rfl, rfl, rfl, rfl, rfl, rfl, rfl⟩
  simp [processIssueCommand, ha, ht, htne, strTruthy, hs, hp, hassign,
    resolveAssigneeAI, hgen]

/-- Witness for C7: creating `Fix login` on the empty store at `t1`. -/
theorem C7_create_empty_store_defaults_witness :
    ∃ newIssue,
      processIssueCommand wCreateInterp [] "t1" =
        ({ status := ResStatus.success,
           message := "New issue SF-001: \"Fix login\" created.",
           interpretation := some wCreateInterp,
           updatedIssueId := some "SF-001" },
         [newIssue]) ∧
      newIssue.id = "SF-001" ∧ newIssue.title = "Fix login" ∧
      newIssue.status = "To Do" ∧ newIssue.priority = "Medium" ∧
      newIssue.assignee = none ∧ newIssue.createdAt = "t1" ∧
      newIssue.updatedAt = "t1" :=
  C7_create_empty_store_defaults wCreateInterp "t1" "Fix login"
    rfl rfl (by decide) rfl rfl rfl

/-- C8: a mutation aimed at an identifier matching no record in the
store is a terminal not-found error and leaves the store exactly
unchanged, on all three paths: a non-create command with a resolved
identifier, a valid form update, and a delete request. -/
theorem C8_not_found_store_unchanged :
    (∀ (interp : InterpretOut) (db : List Issue) (now tid : String),
       interp.action ≠ "createIssue" → interp.issueId = some tid → tid ≠ "" →
       (∀ i ∈ db, i.id ≠ tid) →
       processIssueCommand interp db now =
         ({ status := ResStatus.error,
            message := "Issue " ++ tid ++ " not found.",
            interpretation := some interp, updatedIssueId := none }, db)) ∧
    (∀ (raw : UpdateForm) (db : List Issue) (now : String) (data : UpdateData),
       validateUpdateForm raw = Except.ok data → (∀ i ∈ db, i.id ≠ data.id) →
       updateIssueAction raw db now =
         ({ status := ResStatus.error, message := "Issue not found.",
            issue := none }, db)) ∧
    (∀ (db : List Issue) (tid : String), tid ≠ "" → (∀ i ∈ db, i.id ≠ tid) →
       deleteIssueAction (some tid) db =
         ({ status := ResStatus.error,
            message := "Issue " ++ tid ++ " not found." }, db)) := by
  refine ⟨?_, ?_, ?_⟩
  · intro interp db now tid ha hid htid hnone
    have hfind := find?_eq_none_of_ids hnone
    simp [processIssueCommand, ha, hid, strTruthy, htid, hfind]
  · intro raw db now data hval hnone
    have hfind := find?_eq_none_of_ids hnone
    simp [updateIssueAction, hval, hfind]
  · intro db tid htid hnone
    have hfind := find?_eq_none_of_ids hnone
    simp [deleteIssueAction, htid, hfind]

/-- An assign command aimed at the non-existent identifier `SF-999`. -/
def wAssign999 : InterpretOut :=
  { action := "assignIssue", issueId := some "SF-999",
    assignee := some "Alice" }

/-- Witness for C8 at the seed store: no record has identifier
`SF-999`, so the command, update, and delete paths each report not
found and return the store unchanged. -/
theorem C8_not_found_store_unchanged_witness :
    processIssueCommand wAssign999 [wIssue] "t1" =
      ({ status := ResStatus.error, message := "Issue SF-999 not found.",
         interpretation := some wAssign999,
         updatedIssueId := none }, [wIssue]) ∧
    updateIssueAction { wUpdateForm with id := some "SF-999" } [wIssue] "t1" =
      ({ status := ResStatus.error, message := "Issue not found.",
         issue := none }, [wIssue]) ∧
    deleteIssueAction (some "SF-999") [wIssue] =
      ({ status := ResStatus.error,
         message := "Issue SF-999 not found." }, [wIssue]) :=
  ⟨C8_not_found_store_unchanged.1 wAssign999 [wIssue] "t1" "SF-999"
      (by decide) rfl (by decide) (by decide),
   C8_not_found_store_unchanged.2.1 { wUpdateForm with id := some "SF-999" }
      [wIssue] "t1" { wUpdateData with id := "SF-999" } (by rfl) (by decide),
   C8_not_found_store_unchanged.2.2 [wIssue] "SF-999" (by decide) (by decide)⟩

/-- C9: a successful delete removes exactly one record, the first one
whose identifier equals the requested one; every record before it (all
of which have a different identifier) and every record after it is kept
unchanged in its relative order. -/
theorem C9_delete_removes_first_match (db : List Issue) (tid : String)
    (htid : tid ≠ "") (hpresent : ∃ i ∈ db, i.id = tid) :
    ∃ pre x post, db = pre ++ x :: post ∧ x.id = tid ∧
      (∀ y ∈ pre, y.id ≠ tid) ∧
      deleteIssueAction (some tid) db =
        ({ status := ResStatus.success,
           message := "Issue " ++ tid ++ " deleted successfully." },
         pre ++ post) := by
  obtain ⟨i, hi, hid⟩ := hpresent
  have hsome : ∃ x, db.find? (fun issue => issue.id == tid) = some x := by
    cases hf : db.find? (fun issue => issue.id == tid) with
    | none =>
      exfalso
      have hnot := List.find?_eq_none.mp hf i hi
      simp [hid] at hnot
    | some x => exact ⟨x, rfl⟩
  obtain ⟨x, hx⟩ := hsome
  obtain ⟨pre, post, hdecomp, hpre, hpx, hrem⟩ := removeFirst_of_find? _ db x hx
  refine ⟨pre, x, post, hdecomp, by simpa using hpx, ?_, ?_⟩
  · intro y hy
    have hnoty := hpre y hy
    simpa using hnoty
  · simp [deleteIssueAction, htid, hx, hrem]

/-- Witness for C9 at a two-record store: deleting `SF-001` removes the
second record and keeps `SF-007` in place. -/
theorem C9_delete_removes_first_match_witness :
    ∃ pre x post, [wOld, wIssue] = pre ++ x :: post ∧ x.id = "SF-001" ∧
      (∀ y ∈ pre, y.id ≠ "SF-001") ∧
      deleteIssueAction (some "SF-001") [wOld, wIssue] =
        ({ status := ResStatus.success,
           message := "Issue SF-001 deleted successfully." }, pre ++ post) :=
  C9_delete_removes_first_match [wOld, wIssue] "SF-001" (by decide)
    ⟨wIssue, by decide, rfl⟩

/-- C10: an assignee name longer than 50 characters is rejected with a
validation error and the registry is unchanged; a name of length 1 to
50 that is not already present case-insensitively is accepted and
appended to the registry. -/
theorem C10_add_assignee_validation :
    (∀ (name : String) (registry : List String), 50 < name.length →
       addAssigneeAction (some name) registry =
         ({ status := ResStatus.error, message := "Assignee name too long." },
          registry)) ∧
    (∀ (name : String) (registry : List String),
       1 ≤ name.length → name.length ≤ 50 →
       (registry.map toLowerCase).contains (toLowerCase name) = false →
       addAssigneeAction (some name) registry =
         ({ status := ResStatus.success,
            message := "Assignee \"" ++ name ++ "\" added." },
          registry ++ [name])) := by
  constructor
  · intro name registry hlen
    have hne : name ≠ "" := by
      intro h
      subst h
      simp at hlen
    simp [addAssigneeAction, hne, hlen]
  · intro name registry h1 h50 hcont
    have hne : name ≠ "" := by
      intro h
      subst h
      simp at h1
    have hnotlong : ¬(name.length > 50) := by omega
    simp at hcont
    simp [addAssigneeAction, hne, hnotlong]
    exact hcont

/-- Witness for C10: a 51-character name is rejected and the registry
is unchanged; the fresh name `Bob` is appended. -/
theorem C10_add_assignee_validation_witness :
    addAssigneeAction (some (String.mk (List.replicate 51 'A'))) ["Alice"] =
      ({ status := ResStatus.error, message := "Assignee name too long." },
       ["Alice"]) ∧
    addAssigneeAction (some "Bob") ["Alice"] =
      ({ status := ResStatus.success, message := "Assignee \"Bob\" added." },
       ["Alice", "Bob"]) :=
  ⟨C10_add_assignee_validation.1 (String.mk (List.replicate 51 'A')) ["Alice"]
      (by decide),
   C10_add_assignee_validation.2 "Bob" ["Alice"] (by decide) (by decide)
      (by decide)⟩
